import Mathlib

set_option linter.unusedVariables false

/-! Shallow embedding of the prediction engine in
src/my-app/components/simulation-interface.tsx.

Modelling conventions.  JavaScript numbers that may be NaN (results of
parseInt on arbitrary strings and any arithmetic built from them) are
modelled as Option Int / Option ℚ, with none playing the role of NaN:
arithmetic propagates none and every comparison against none is false,
exactly as NaN behaves in JavaScript.  Finite numeric data
(temperatures) is modelled over ℚ.  The for-loop of
generatePredictionLine is modelled with explicit fuel: a result of
none means the loop is still running after fuel iterations, so a
result of none for every fuel amount is non-termination of the source
loop.  The third-party regression library and the Number.prototype
formatting helpers (toFixed, toExponential) are not code of this
repository; they enter the embedding as an abstract environment
JsEnv, so every theorem below holds for every behaviour of those
externals. -/

/-- One historical record, mirroring the TemperatureData type
(simulation-interface.tsx lines 29-33).  The year is kept as a string,
as in the source feed. -/
structure TemperatureData where
  year : String
  annual_mean : ℚ
  five_year_smooth : ℚ
  deriving DecidableEq

/-- The model selector, mirroring the union type
'polynomial' | 'moving-average' (line 38). -/
inductive SimModel where
  | polynomial
  | movingAverage
  deriving DecidableEq

/-- Characters skipped by JavaScript parseInt before reading digits. -/
def jsWhitespace (c : Char) : Bool :=
  c == ' ' || c == '\t' || c == '\n' || c == '\r'

/-- Decimal value of a digit string, most significant digit first. -/
def digitsToNat (ds : List Char) : Nat :=
  ds.foldl (fun a c => a * 10 + (c.toNat - 48)) 0

/-- Longest leading run of decimal digits, NaN (none) when there is none. -/
def parseIntCore (cs : List Char) : Option Int :=
  let ds := cs.takeWhile Char.isDigit
  if ds.isEmpty then none else some ((digitsToNat ds : Nat) : Int)

/-- JavaScript parseInt with the default radix 10: skip leading
whitespace, read an optional sign and then the longest leading digit
run; none models the NaN result when no digit is found. -/
def parseIntJS (s : String) : Option Int :=
  match s.toList.dropWhile jsWhitespace with
  | '-' :: rest => (parseIntCore rest).map (fun n => -n)
  | '+' :: rest => parseIntCore rest
  | cs => parseIntCore cs

/-- JavaScript Number() conversion restricted to integer-literal
strings, which is the shape of the year column feeding the (abstract)
regression library: the whole trimmed string must be a signed digit
run; the empty string converts to 0; anything else is NaN (none). -/
def numberJS (s : String) : Option Int :=
  match (s.toList.dropWhile jsWhitespace).reverse.dropWhile jsWhitespace |>.reverse with
  | [] => some 0
  | '-' :: rest =>
      if rest.isEmpty || !rest.all Char.isDigit then none
      else some (-((digitsToNat rest : Nat) : Int))
  | '+' :: rest =>
      if rest.isEmpty || !rest.all Char.isDigit then none
      else some ((digitsToNat rest : Nat) : Int)
  | cs =>
      if cs.all Char.isDigit then some ((digitsToNat cs : Nat) : Int) else none

/-- NaN-propagating addition on JavaScript integers. -/
def jsAdd (a b : Option Int) : Option Int :=
  match a, b with
  | some x, some y => some (x + y)
  | _, _ => none

/-- NaN-propagating subtraction on JavaScript integers. -/
def jsSub (a b : Option Int) : Option Int :=
  match a, b with
  | some x, some y => some (x - y)
  | _, _ => none

/-- JavaScript comparison a <= b: false when either side is NaN. -/
def jsLe (a b : Option Int) : Bool :=
  match a, b with
  | some x, some y => decide (x ≤ y)
  | _, _ => false

/-- JavaScript comparison a < k for an integer literal k: false on NaN. -/
def jsLtI (a : Option Int) (k : Int) : Bool :=
  match a with
  | some x => decide (x < k)
  | none => false

/-- JavaScript comparison p < m on temperatures: false when p is NaN. -/
def jsLtQ (p : Option ℚ) (m : ℚ) : Bool :=
  match p with
  | some q => decide (q < m)
  | none => false

/-- JavaScript comparison p > m on temperatures: false when p is NaN. -/
def jsGtQ (p : Option ℚ) (m : ℚ) : Bool :=
  match p with
  | some q => decide (m < q)
  | none => false

/-- JavaScript Number.prototype.toString on a possibly-NaN integer. -/
def optIntStr : Option Int → String
  | some n => toString n
  | none => "NaN"

/-- Result record of the (external) regression library call: a
prediction function (second component of predict), the array of
equation coefficients and the r2 score. -/
structure RegResult where
  predict : Option Int → Option ℚ
  equation : ℚ × ℚ × ℚ
  r2 : ℚ

/-- The JavaScript facilities that are external to this repository:
the regression package and the number-formatting builtins.  All
theorems hold for an arbitrary such environment. -/
structure JsEnv where
  regressionPolynomial : List (Option Int × ℚ) → RegResult
  toFixed : Nat → Option ℚ → String
  toExponential : Nat → ℚ → String

/-- Output of calculatePolynomialRegression (lines 86-117). -/
structure PolyOut where
  prediction : Option ℚ
  equation : String
  r2 : ℚ
  deriving DecidableEq

/-- Output of calculateMovingAverage (lines 124-146). -/
structure MAvgOut where
  prediction : Option ℚ
  description : String
  deriving DecidableEq

/-- The predictionLine state value (line 46). -/
structure PredLine where
  years : List String
  temps : List (Option ℚ)
  deriving DecidableEq

/-- The result state value (lines 40-44). -/
structure SimResult where
  prediction : Option ℚ
  details : List String
  error : Option String
  deriving DecidableEq

/-- data[0] as the source reads it; the default is unreachable junk
standing for the exception a [] access would raise. -/
def firstRecord (l : List TemperatureData) : TemperatureData :=
  l.headD ⟨"", 0, 0⟩

/-- data[data.length - 1] as the source reads it; the default is
unreachable junk standing for the exception a [] access would raise. -/
def lastRecord (l : List TemperatureData) : TemperatureData :=
  l.getLastD ⟨"", 0, 0⟩

/-- data.slice(-5): the last five records, or all of them when the
series is shorter (line 128). -/
def recentData (data : List TemperatureData) : List TemperatureData :=
  data.drop (data.length - 5)

/-- The avgTemp of calculateMovingAverage (line 129): reduce with +
over five_year_smooth, divided by the window length. -/
def avgTempOf (data : List TemperatureData) : ℚ :=
  ((recentData data).foldl (fun s d => s + d.five_year_smooth) 0) /
    (((recentData data).length : ℚ))

/-- The yearlyChange of calculateMovingAverage (line 132): the source
divides by the hardcoded constant 4 ("4 intervals in 5 years"). -/
def yearlyChangeOf (data : List TemperatureData) : ℚ :=
  ((lastRecord (recentData data)).five_year_smooth -
    (firstRecord (recentData data)).five_year_smooth) / 4

/-- Modelled from the spec: the yearlyChange formula as the
specification words it, dividing by (windowSize - 1) instead of the
hardcoded 4.  Used only to compare the source computation against the
claimed formula. -/
def yearlyChangeSpecFormula (data : List TemperatureData) : ℚ :=
  ((lastRecord (recentData data)).five_year_smooth -
    (firstRecord (recentData data)).five_year_smooth) /
    ((((recentData data).length : ℚ)) - 1)

/-- calculateMovingAverage (lines 124-146).  The prediction is
avgTemp + yearlyChange * (parseInt targetYear - parseInt lastYear),
NaN (none) when either parse fails; the empty series short-circuits to
prediction 0 and an empty description (line 125). -/
def calculateMovingAverage (env : JsEnv) (data : List TemperatureData)
    (targetYear : String) : MAvgOut :=
  if data.length = 0 then ⟨some 0, ""⟩ else
  let avgTemp := avgTempOf data
  let yearlyChange := yearlyChangeOf data
  let lastYear := parseIntJS (lastRecord data).year
  let yearsAhead := jsSub (parseIntJS targetYear) lastYear
  let prediction := yearsAhead.map (fun k => avgTemp + yearlyChange * ((k : ℚ)))
  let description :=
    ("Based on 5-year moving average:\nLast 5 years average: ") ++
    env.toFixed 2 (some avgTemp) ++ ("°C\nRate of change: ") ++
    (if 0 < yearlyChange then ("+") else ("")) ++
    env.toFixed 4 (some (yearlyChange * 100)) ++ ("°C per year")
  ⟨prediction, description⟩

/-- calculatePolynomialRegression (lines 86-117).  Years are
normalized by subtracting 1900, the least-squares fit itself is the
abstract library call; adjusted R2 is 1 - (1 - r2)(n - 1)/(n - p - 1)
with p = 2 (in ℚ the n = 3 case divides by zero and yields 0 where
JavaScript would yield an infinity; no theorem below depends on it).
The empty series short-circuits to ⟨0, empty, 0⟩ (line 87). -/
def calculatePolynomialRegression (env : JsEnv) (data : List TemperatureData)
    (targetYear : String) : PolyOut :=
  if data.length = 0 then ⟨some 0, "", 0⟩ else
  let points := data.map (fun d => (jsSub (numberJS d.year) (some 1900), d.five_year_smooth))
  let result := env.regressionPolynomial points
  let normalizedYear := jsSub (parseIntJS targetYear) (some 1900)
  let prediction := result.predict normalizedYear
  let equation :=
    ("y = ") ++ env.toExponential 6 result.equation.1 ++ ("x² + ") ++
    env.toFixed 6 (some result.equation.2.1) ++ ("x + ") ++
    env.toFixed 4 (some result.equation.2.2)
  let n : ℚ := ((data.length : ℚ))
  let adjustedR2 := 1 - ((1 - result.r2) * (n - 1) / (n - 2 - 1))
  ⟨prediction, equation, adjustedR2⟩

/-- Dispatch on the selected model, as done in the loop body of
generatePredictionLine (lines 172-178) and in handleSimulation
(lines 215-235). -/
def modelPredictionAt (env : JsEnv) (data : List TemperatureData)
    (model : SimModel) (y : String) : Option ℚ :=
  match model with
  | SimModel.polynomial => (calculatePolynomialRegression env data y).prediction
  | SimModel.movingAverage => (calculateMovingAverage env data y).prediction

/-- Math.ceil((predictionYear - lastDataYear) / numPoints) with
numPoints = 5 (line 166), NaN-propagating. -/
def yearStepOf (predictionYear lastDataYear : Option Int) : Option Int :=
  (jsSub predictionYear lastDataYear).map (fun d => ⌈(((d : ℚ))) / 5⌉)

/-- The for-loop of generatePredictionLine (lines 168-179), with
explicit fuel.  none means fuel ran out with the loop condition still
true, so a none answer at every fuel amount is a non-terminating
source loop.  Comparisons against a NaN bound or NaN loop variable
are false, as in JavaScript. -/
def stepLoop (predAt : Option Int → Option ℚ) (step bound : Option Int) :
    Nat → Option Int → List String → List (Option ℚ) →
    Option (List String × List (Option ℚ))
  | 0, year, ys, ts => if jsLe year bound then none else some (ys, ts)
  | Nat.succ f, year, ys, ts =>
      if jsLe year bound then
        stepLoop predAt step bound f (jsAdd year step)
          (ys ++ [optIntStr year]) (ts ++ [predAt year])
      else some (ys, ts)

/-- generatePredictionLine (lines 154-188): start from the last data
point, run the stepping loop, then append the exact target point when
the last generated label differs from the target label.  A none loop
outcome (fuel exhausted with the condition still true) propagates. -/
def generatePredictionLine (env : JsEnv) (data : List TemperatureData)
    (yearToPredict : String) (prediction : Option ℚ) (model : SimModel)
    (fuel : Nat) : Option PredLine :=
  (stepLoop (fun yr => modelPredictionAt env data model (optIntStr yr))
      (yearStepOf (parseIntJS yearToPredict) (parseIntJS (lastRecord data).year))
      (parseIntJS yearToPredict) fuel
      (jsAdd (parseIntJS (lastRecord data).year)
        (yearStepOf (parseIntJS yearToPredict) (parseIntJS (lastRecord data).year)))
      [optIntStr (parseIntJS (lastRecord data).year)]
      [some (lastRecord data).five_year_smooth]).map
    (fun r =>
      if r.1.getLastD ("") = optIntStr (parseIntJS yearToPredict) then ⟨r.1, r.2⟩
      else ⟨r.1 ++ [optIntStr (parseIntJS yearToPredict)], r.2 ++ [prediction]⟩)

/-- Math.max over the annual_mean column for a non-empty series. -/
def listMaxQ : List ℚ → ℚ
  | [] => 0
  | x :: xs => xs.foldl max x

/-- Math.min over the annual_mean column for a non-empty series. -/
def listMinQ : List ℚ → ℚ
  | [] => 0
  | x :: xs => xs.foldl min x

/-- maxTemp of handleSimulation (line 238). -/
def maxAnnual (data : List TemperatureData) : ℚ :=
  listMaxQ (data.map (fun d => d.annual_mean))

/-- minTemp of handleSimulation (line 239). -/
def minAnnual (data : List TemperatureData) : ℚ :=
  listMinQ (data.map (fun d => d.annual_mean))

/-- The range test of handleSimulation (lines 240-244) with
margin = 1.5 = 3/2: prediction < minTemp - margin or
prediction > maxTemp + margin.  For the empty series JavaScript gets
minTemp = Infinity and maxTemp = -Infinity from the empty spreads, so
every non-NaN prediction is out of range and a NaN one is not. -/
def outOfRange (data : List TemperatureData) (p : Option ℚ) : Bool :=
  match data with
  | [] => p.isSome
  | d :: ds =>
      jsLtQ p (minAnnual (d :: ds) - 3 / 2) || jsGtQ p (maxAnnual (d :: ds) + 3 / 2)

/-- The warning text attached in the out-of-range branch
(lines 248-253). -/
def rangeWarning (env : JsEnv) (data : List TemperatureData) (p : Option ℚ) : String :=
  ("Note: The predicted temperature (") ++ env.toFixed 2 p ++
  ("°C) is outside our historical observations.\n\nHistorical Range: ") ++
  env.toFixed 2 (some (minAnnual data)) ++ ("°C to ") ++
  env.toFixed 2 (some (maxAnnual data)) ++ ("°C\nAllowed Range: ") ++
  env.toFixed 2 (some (minAnnual data - 3 / 2)) ++ ("°C to ") ++
  env.toFixed 2 (some (maxAnnual data + 3 / 2)) ++
  ("°C (±1.5°C margin)\n\nThis doesn\x27t necessarily mean the prediction is wrong, but it suggests a significant change from historical patterns.")

/-- The explanation lines built by handleSimulation (lines 215-235). -/
def simDetails (env : JsEnv) (model : SimModel) (y : String)
    (data : List TemperatureData) : List String :=
  match model with
  | SimModel.polynomial =>
      [("Prediction Model: Polynomial Regression (2nd degree)"),
       ("Target Year: ") ++ y,
       ("Predicted Temperature: ") ++
         env.toFixed 2 (calculatePolynomialRegression env data y).prediction ++ ("°C"),
       ("Mathematical Model: ") ++ (calculatePolynomialRegression env data y).equation,
       ("Model Accuracy (R²): ") ++
         env.toFixed 4 (some (calculatePolynomialRegression env data y).r2),
       ("Note: Using 5-year smoothed data for stability")]
  | SimModel.movingAverage =>
      [("Prediction Model: 5-Year Moving Average"),
       ("Target Year: ") ++ y,
       ("Predicted Temperature: ") ++
         env.toFixed 2 (calculateMovingAverage env data y).prediction ++ ("°C"),
       (calculateMovingAverage env data y).description]

/-- The year gate of handleSimulation (lines 199-200):
parseInt(yearToPredict) < 2024, false on NaN. -/
def invalidYearGate (yearToPredict : String) : Bool :=
  jsLtI (parseIntJS yearToPredict) 2024

/-- The body of the try block of handleSimulation (lines 211-262):
compute prediction and details, test the historical range; when out
of range return the warning result without touching the prediction
line (the second component none records that setPredictionLine is not
called); otherwise generate the prediction line and return it as the
state update.  none propagates a non-terminating line generation. -/
def handleSimulationCompute (env : JsEnv) (model : SimModel)
    (yearToPredict : String) (data : List TemperatureData) (fuel : Nat) :
    Option (SimResult × Option PredLine) :=
  if outOfRange data (modelPredictionAt env data model yearToPredict) then
    some (⟨modelPredictionAt env data model yearToPredict,
           simDetails env model yearToPredict data,
           some (rangeWarning env data (modelPredictionAt env data model yearToPredict))⟩,
          none)
  else
    match generatePredictionLine env data yearToPredict
        (modelPredictionAt env data model yearToPredict) model fuel with
    | none => none
    | some line =>
        some (⟨modelPredictionAt env data model yearToPredict,
               simDetails env model yearToPredict data, none⟩, some line)

/-- handleSimulation (lines 197-272): reject years below 2024 before
any computation, otherwise run the computation body.  The returned
pair is the result state together with the prediction-line state
update (none when setPredictionLine is not called). -/
def handleSimulation (env : JsEnv) (model : SimModel) (yearToPredict : String)
    (data : List TemperatureData) (fuel : Nat) :
    Option (SimResult × Option PredLine) :=
  if invalidYearGate yearToPredict then
    some (⟨some 0, [("Invalid year selected")],
           some ("Please select a year from 2024 onwards for predictions.")⟩, none)
  else handleSimulationCompute env model yearToPredict data fuel

/-- The predictionLine React state after a run of handleSimulation:
it becomes the generated line when setPredictionLine is called and
keeps its previous value otherwise. -/
def predictionLineAfter (env : JsEnv) (model : SimModel) (yearToPredict : String)
    (data : List TemperatureData) (fuel : Nat) (prev : PredLine) : Option PredLine :=
  (handleSimulation env model yearToPredict data fuel).map
    (fun r => r.2.getD prev)

/-- A trivial concrete instantiation of the external JavaScript
environment, used to evaluate the embedding at concrete inputs. -/
def defaultEnv : JsEnv where
  regressionPolynomial := fun _ => ⟨fun _ => some 0, (0, 0, 0), 0⟩
  toFixed := fun _ _ => ""
  toExponential := fun _ _ => ""

/-! Helper lemmas about the stepping loop. -/

/-- With a zero step and the loop variable already at the bound, the
loop condition stays true forever: the loop consumes all fuel. -/
lemma stepLoop_const_none (p : Option Int → Option ℚ) (P : Int) :
    ∀ (fuel : Nat) (ys : List String) (ts : List (Option ℚ)),
      stepLoop p (some 0) (some P) fuel (some P) ys ts = none := by
  intro fuel
  induction fuel with
  | zero => intro ys ts; simp [stepLoop, jsLe]
  | succ f ih =>
      intro ys ts
      simp only [stepLoop, jsLe, le_refl, decide_True, if_true, jsAdd, add_zero]
      exact ih _ _

/-- Input on which the source loop of generatePredictionLine never
terminates: the target year equals the last observed year. -/
def dataC1 : List TemperatureData := [⟨"2024", 25, 26⟩]

/-- C1: the claim fails on the code.  When targetYear equals the last
observed year, the year step is ceil(0/5) = 0, the loop variable stays
at lastDataYear and the loop condition year <= predictionYear stays
true, so the stepping loop of generatePredictionLine never finishes
for any amount of fuel: the function never produces the claimed
single-point sequence, and the loop body runs unboundedly instead of
zero times. -/
theorem C1_generatePredictionLine_nonterminating (env : JsEnv) (model : SimModel)
    (pred : Option ℚ) (fuel : Nat) :
    generatePredictionLine env dataC1 ("2024") pred model fuel = none := by
  have h1 : parseIntJS (lastRecord dataC1).year = some 2024 := by decide
  have h2 : parseIntJS ("2024") = some 2024 := by decide
  have h3 : yearStepOf (some 2024) (some 2024) = some 0 := by
    simp [yearStepOf, jsSub]
  have h4 : jsAdd (some (2024 : Int)) (some 0) = some 2024 := by decide
  unfold generatePredictionLine
  rw [h1, h2, h3, h4, stepLoop_const_none]
  rfl

/-- Window of size 2 on which the hardcoded divisor 4 differs from the
claimed divisor windowSize - 1. -/
def dataC2 : List TemperatureData := [⟨"2021", 25, 0⟩, ⟨"2022", 25, 4⟩]

/-- C2 counterexample: on a series whose last-5-record window has
windowSize = 2 (within the claimed 2 ≤ windowSize ≤ 5), the code
computes yearlyChange = (4 - 0)/4 = 1 while the claimed formula
(window.last - window.first)/(windowSize - 1) gives 4. -/
theorem C2_yearlyChange_counterexample :
    (2 ≤ (recentData dataC2).length ∧ (recentData dataC2).length ≤ 5) ∧
    yearlyChangeOf dataC2 ≠ yearlyChangeSpecFormula dataC2 := by
  refine ⟨by decide, ?_⟩
  have hl : lastRecord (recentData dataC2) = ⟨"2022", 25, 4⟩ := rfl
  have hf : firstRecord (recentData dataC2) = ⟨"2021", 25, 0⟩ := rfl
  have hlen : (recentData dataC2).length = 2 := rfl
  unfold yearlyChangeOf yearlyChangeSpecFormula
  rw [hl, hf, hlen]
  norm_num

/-- C2 amended: the code divides by the hardcoded constant 4, which
agrees with the claimed divisor windowSize - 1 exactly when the window
has its full 5 records, i.e. whenever the series has at least 5
records. -/
theorem C2_yearlyChange_amended (data : List TemperatureData)
    (h : 5 ≤ data.length) :
    yearlyChangeOf data = yearlyChangeSpecFormula data := by
  have hlen : (recentData data).length = 5 := by
    unfold recentData
    rw [List.length_drop]
    omega
  unfold yearlyChangeOf yearlyChangeSpecFormula
  rw [hlen]
  norm_num

/-- The concrete 5-record series of the specification example. -/
def data5 : List TemperatureData :=
  [⟨"2018", 26.0, 26.0⟩, ⟨"2019", 26.2, 26.2⟩, ⟨"2020", 26.4, 26.4⟩,
   ⟨"2021", 26.6, 26.6⟩, ⟨"2022", 26.8, 26.8⟩]

/-- C2 amended witness at the 5-record example series. -/
theorem C2_yearlyChange_amended_witness :
    5 ≤ data5.length ∧ yearlyChangeOf data5 = yearlyChangeSpecFormula data5 :=
  ⟨by decide, C2_yearlyChange_amended data5 (by decide)⟩

/-- On a non-empty series, the prediction component of
calculateMovingAverage is avgTemp + yearlyChange * yearsAhead with
NaN-propagating year arithmetic. -/
lemma calculateMovingAverage_prediction (env : JsEnv) (data : List TemperatureData)
    (y : String) (h : ¬ data.length = 0) :
    (calculateMovingAverage env data y).prediction =
      (jsSub (parseIntJS y) (parseIntJS (lastRecord data).year)).map
        (fun k => avgTempOf data + yearlyChangeOf data * ((k : ℚ))) := by
  unfold calculateMovingAverage
  rw [if_neg h]

/-- C5: on the example series the moving-average predictor computes
avgTemp = 26.4, yearlyChange = (26.8 - 26.0)/4 = 0.2, and prediction
26.4 + 0.2 * (2030 - 2022) = 28. -/
theorem C5_moving_average_example (env : JsEnv) :
    avgTempOf data5 = 26.4 ∧ yearlyChangeOf data5 = 0.2 ∧
    (calculateMovingAverage env data5 ("2030")).prediction = some 28 := by
  have havg : avgTempOf data5 = 26.4 := by
    norm_num [avgTempOf, recentData, data5]
  have hyc : yearlyChangeOf data5 = 0.2 := by
    have hl : lastRecord (recentData data5) = ⟨"2022", 26.8, 26.8⟩ := rfl
    have hf : firstRecord (recentData data5) = ⟨"2018", 26.0, 26.0⟩ := rfl
    unfold yearlyChangeOf
    rw [hl, hf]
    norm_num
  refine ⟨havg, hyc, ?_⟩
  rw [calculateMovingAverage_prediction env data5 ("2030") (by decide)]
  rw [show parseIntJS ("2030") = some 2030 from by decide,
      show parseIntJS (lastRecord data5).year = some 2022 from by decide]
  simp only [jsSub, Option.map_some]
  rw [havg, hyc]
  norm_num

/-- C8: on the empty series both predictors return their defined
zero/empty results, for every target year and every behaviour of the
external library: the polynomial path returns prediction 0, empty
equation and r2 = 0, the moving-average path returns prediction 0 and
an empty description. -/
theorem C8_empty_series_defaults (env : JsEnv) (targetYear : String) :
    calculatePolynomialRegression env [] targetYear = ⟨some 0, "", 0⟩ ∧
    calculateMovingAverage env [] targetYear = ⟨some 0, ""⟩ :=
  ⟨rfl, rfl⟩

/-! Orchestration lemmas and claims. -/

/-- jsLtI on a parsed year reduces to a decidable comparison. -/
lemma jsLtI_some (x k : Int) : jsLtI (some x) k = decide (x < k) := rfl

/-- The out-of-range branch of handleSimulation: when the target year
parses to at least 2024 and the prediction is out of the historical
band, the run returns the warning result and no prediction-line
update, independently of the fuel given to the line generator. -/
lemma handleSimulation_out_of_range (env : JsEnv) (model : SimModel) (y : String)
    (data : List TemperatureData) (n : Int) (fuel : Nat)
    (hy : parseIntJS y = some n) (hn : 2024 ≤ n)
    (hout : outOfRange data (modelPredictionAt env data model y) = true) :
    handleSimulation env model y data fuel =
      some (⟨modelPredictionAt env data model y, simDetails env model y data,
             some (rangeWarning env data (modelPredictionAt env data model y))⟩,
            none) := by
  have hg : invalidYearGate y = false := by
    unfold invalidYearGate
    rw [hy, jsLtI_some]
    simp only [decide_eq_false_iff_not]
    omega
  unfold handleSimulation handleSimulationCompute
  rw [hg, hout]
  simp

/-- C3: whenever the computed prediction is out of the historical band
[minObserved - 1.5, maxObserved + 1.5] over annual_mean, the
orchestration returns the prediction with its explanation lines and
the warning attached, and no prediction-line update happens: the
result is the same for every fuel, so generatePredictionLine is never
consulted. -/
theorem C3_out_of_range_skips_trendline (env : JsEnv) (model : SimModel) (y : String)
    (data : List TemperatureData) (n : Int) (fuel : Nat)
    (hd : data ≠ [])
    (hy : parseIntJS y = some n) (hn : 2024 ≤ n)
    (hout : outOfRange data (modelPredictionAt env data model y) = true) :
    handleSimulation env model y data fuel =
      some (⟨modelPredictionAt env data model y, simDetails env model y data,
             some (rangeWarning env data (modelPredictionAt env data model y))⟩,
            none) :=
  handleSimulation_out_of_range env model y data n fuel hy hn hout

/-- Concrete two-record series used by the orchestration witnesses:
moving-average prediction for 2100 is 2 + 1 * 78 = 80, far above the
allowed band [23.5, 26.5]. -/
def dataW : List TemperatureData := [⟨"2021", 25, 0⟩, ⟨"2022", 25, 4⟩]

/-- The moving-average prediction of dataW at target 2100 is 80. -/
lemma dataW_prediction :
    modelPredictionAt defaultEnv dataW SimModel.movingAverage ("2100") = some 80 := by
  show (calculateMovingAverage defaultEnv dataW ("2100")).prediction = some 80
  rw [calculateMovingAverage_prediction defaultEnv dataW ("2100") (by simp [dataW])]
  rw [show parseIntJS ("2100") = some 2100 from by decide,
      show parseIntJS (lastRecord dataW).year = some 2022 from by decide]
  simp only [jsSub, Option.map_some]
  have havg : avgTempOf dataW = 2 := by norm_num [avgTempOf, recentData, dataW]
  have hyc : yearlyChangeOf dataW = 1 := by
    have hl : lastRecord (recentData dataW) = ⟨"2022", 25, 4⟩ := rfl
    have hf : firstRecord (recentData dataW) = ⟨"2021", 25, 0⟩ := rfl
    unfold yearlyChangeOf
    rw [hl, hf]
    norm_num
  rw [havg, hyc]
  norm_num

/-- The prediction 80 is out of the historical band of dataW. -/
lemma dataW_out_of_range :
    outOfRange dataW (modelPredictionAt defaultEnv dataW SimModel.movingAverage ("2100")) = true := by
  rw [dataW_prediction]
  have h1 : outOfRange dataW (some 80) =
      (jsLtQ (some 80) (minAnnual dataW - 3 / 2) ||
       jsGtQ (some 80) (maxAnnual dataW + 3 / 2)) := rfl
  rw [h1]
  have hmin : minAnnual dataW = 25 := by norm_num [minAnnual, listMinQ, dataW]
  have hmax : maxAnnual dataW = 25 := by norm_num [maxAnnual, listMaxQ, dataW]
  rw [hmin, hmax]
  simp only [jsLtQ, jsGtQ, Bool.or_eq_true, decide_eq_true_eq]
  right
  norm_num

/-- C3 witness at the concrete series dataW and target year 2100. -/
theorem C3_out_of_range_skips_trendline_witness :
    handleSimulation defaultEnv SimModel.movingAverage ("2100") dataW 5 =
      some (⟨modelPredictionAt defaultEnv dataW SimModel.movingAverage ("2100"),
             simDetails defaultEnv SimModel.movingAverage ("2100") dataW,
             some (rangeWarning defaultEnv dataW
               (modelPredictionAt defaultEnv dataW SimModel.movingAverage ("2100")))⟩,
            none) :=
  C3_out_of_range_skips_trendline defaultEnv SimModel.movingAverage ("2100") dataW 2100 5
    (by simp [dataW]) (by decide) (by decide) dataW_out_of_range

/-- C10: in the out-of-range branch the stored prediction-line state
is left unchanged: for every previous line state, the state after the
run is exactly the previous one. -/
theorem C10_out_of_range_preserves_state (env : JsEnv) (model : SimModel) (y : String)
    (data : List TemperatureData) (n : Int) (fuel : Nat)
    (hd : data ≠ [])
    (hy : parseIntJS y = some n) (hn : 2024 ≤ n)
    (hout : outOfRange data (modelPredictionAt env data model y) = true)
    (prev : PredLine) :
    predictionLineAfter env model y data fuel prev = some prev := by
  unfold predictionLineAfter
  rw [handleSimulation_out_of_range env model y data n fuel hy hn hout]
  rfl

/-- C10 witness: a previously stored line survives an out-of-range run. -/
theorem C10_out_of_range_preserves_state_witness :
    predictionLineAfter defaultEnv SimModel.movingAverage ("2100") dataW 5
        ⟨[("1990")], [some 1]⟩ =
      some ⟨[("1990")], [some 1]⟩ :=
  C10_out_of_range_preserves_state defaultEnv SimModel.movingAverage ("2100") dataW 2100 5
    (by simp [dataW]) (by decide) (by decide) dataW_out_of_range ⟨[("1990")], [some 1]⟩

/-- C6: a parsed target year below 2024 is rejected before any model
computation: the result is the defaulted prediction 0 with the
invalid-year detail and the user-facing error, no prediction-line
update, identically for every model, series, environment and fuel. -/
theorem C6_invalid_year_rejection (env : JsEnv) (model : SimModel) (y : String)
    (data : List TemperatureData) (fuel : Nat) (n : Int)
    (hy : parseIntJS y = some n) (hn : n < 2024) :
    handleSimulation env model y data fuel =
      some (⟨some 0, [("Invalid year selected")],
             some ("Please select a year from 2024 onwards for predictions.")⟩, none) := by
  have hg : invalidYearGate y = true := by
    unfold invalidYearGate
    rw [hy, jsLtI_some]
    simpa using hn
  unfold handleSimulation
  rw [hg]
  simp

/-- C6 witness at the specification example targetYear = 2020. -/
theorem C6_invalid_year_rejection_witness :
    handleSimulation defaultEnv SimModel.polynomial ("2020") [] 3 =
      some (⟨some 0, [("Invalid year selected")],
             some ("Please select a year from 2024 onwards for predictions.")⟩, none) :=
  C6_invalid_year_rejection defaultEnv SimModel.polynomial ("2020") [] 3 2020
    (by decide) (by decide)

/-- C9: the lower-bound validation fires exactly when parseInt yields
a number strictly below 2024; an unparseable year string (parseInt
NaN) is not rejected, and the orchestration proceeds into the model
computation body with the unparseable target. -/
theorem C9_nan_year_gate :
    (∀ y : String, invalidYearGate y = true ↔
      ∃ n : Int, parseIntJS y = some n ∧ n < 2024) ∧
    (∀ y : String, parseIntJS y = none →
      invalidYearGate y = false ∧
      ∀ (env : JsEnv) (model : SimModel) (data : List TemperatureData) (fuel : Nat),
        handleSimulation env model y data fuel =
          handleSimulationCompute env model y data fuel) := by
  constructor
  · intro y
    unfold invalidYearGate
    cases hy : parseIntJS y with
    | none => simp [jsLtI]
    | some k => simp [jsLtI_some]
  · intro y hy
    have hg : invalidYearGate y = false := by
      unfold invalidYearGate
      rw [hy]
      rfl
    refine ⟨hg, ?_⟩
    intro env model data fuel
    unfold handleSimulation
    rw [hg]
    simp

/-- C9 witness at the unparseable input "abc". -/
theorem C9_nan_year_gate_witness :
    invalidYearGate ("abc") = false ∧
    handleSimulation defaultEnv SimModel.polynomial ("abc") [] 3 =
      handleSimulationCompute defaultEnv SimModel.polynomial ("abc") [] 3 :=
  ⟨(C9_nan_year_gate.2 ("abc") (by decide)).1,
   (C9_nan_year_gate.2 ("abc") (by decide)).2 defaultEnv SimModel.polynomial [] 3⟩

/-! Lemmas for the trend-line endpoint claim. -/

/-- A completed stepping loop only ever appends to its accumulators. -/
lemma stepLoop_extends (p : Option Int → Option ℚ) (step bound : Option Int) :
    ∀ (fuel : Nat) (year : Option Int) (ys : List String) (ts : List (Option ℚ))
      (r : List String × List (Option ℚ)),
      stepLoop p step bound fuel year ys ts = some r →
      ∃ u v, r.1 = ys ++ u ∧ r.2 = ts ++ v := by
  intro fuel
  induction fuel with
  | zero =>
      intro year ys ts r h
      by_cases hc : jsLe year bound = true
      · simp [stepLoop, hc] at h
      · simp [stepLoop, hc] at h
        exact ⟨[], [], by simp [← h], by simp [← h]⟩
  | succ f ih =>
      intro year ys ts r h
      by_cases hc : jsLe year bound = true
      · simp only [stepLoop, hc, if_true] at h
        obtain ⟨u, v, hu, hv⟩ := ih (jsAdd year step)
          (ys ++ [optIntStr year]) (ts ++ [p year]) r h
        exact ⟨optIntStr year :: u, p year :: v, by simp [hu], by simp [hv]⟩
      · simp [stepLoop, hc] at h
        exact ⟨[], [], by simp [← h], by simp [← h]⟩

/-- With a positive step and enough fuel, the stepping loop finishes. -/
lemma stepLoop_total (p : Option Int → Option ℚ) (s P : Int) (hs : 1 ≤ s) :
    ∀ (fuel : Nat) (year : Int), (P + 1 - year).toNat ≤ fuel →
      ∀ (ys : List String) (ts : List (Option ℚ)),
        ∃ r, stepLoop p (some s) (some P) fuel (some year) ys ts = some r := by
  intro fuel
  induction fuel with
  | zero =>
      intro year h ys ts
      have hy : ¬ (year ≤ P) := by omega
      exact ⟨(ys, ts), by simp [stepLoop, jsLe, hy]⟩
  | succ f ih =>
      intro year h ys ts
      by_cases hy : year ≤ P
      · obtain ⟨r, hr⟩ := ih (year + s) (by omega)
          (ys ++ [optIntStr (some year)]) (ts ++ [p (some year)])
        refine ⟨r, ?_⟩
        simp only [stepLoop, jsLe, hy, decide_True, if_true, jsAdd]
        exact hr
      · exact ⟨(ys, ts), by simp [stepLoop, jsLe, hy]⟩

/-- getLastD of a list ending in a singleton is that element. -/
lemma getLastD_app_single {α : Type} (a d : α) (l : List α) :
    (l ++ [a]).getLastD d = a := by
  simp [List.getLastD_eq_getLast?, List.getLast?_concat]

/-- C4: for a non-empty series whose last observed year parses to L
and any target year parsing to P with L < P, the line generation
finishes (once the fuel covers the loop length) and its label
sequence starts at the last observed year and ends exactly at the
string of the target year, whatever the intermediate step rounding,
the model, the prediction value and the external environment. -/
theorem C4_trendline_endpoints (env : JsEnv) (model : SimModel)
    (data : List TemperatureData) (y : String) (L P : Int) (pred : Option ℚ)
    (fuel : Nat) (hd : data ≠ [])
    (hL : parseIntJS (lastRecord data).year = some L)
    (hP : parseIntJS y = some P) (hLP : L < P)
    (hfuel : (P - L).toNat ≤ fuel) :
    ∃ line, generatePredictionLine env data y pred model fuel = some line ∧
      line.years.headD ("") = toString L ∧
      line.years.getLastD ("") = toString P := by
  have hpl : (0 : ℚ) < (((P - L : Int)) : ℚ) := by
    have h0 : (0 : Int) < P - L := by omega
    exact_mod_cast h0
  have hs : (0 : Int) < ⌈(((P - L : Int)) : ℚ) / 5⌉ := by
    rw [Int.lt_ceil]
    have h5 := div_pos hpl (by norm_num : (0 : ℚ) < 5)
    simpa using h5
  obtain ⟨r, hloop⟩ := stepLoop_total
    (fun yr => modelPredictionAt env data model (optIntStr yr))
    (⌈(((P - L : Int)) : ℚ) / 5⌉) P (by omega) fuel
    (L + ⌈(((P - L : Int)) : ℚ) / 5⌉) (by omega)
    [optIntStr (some L)] [some (lastRecord data).five_year_smooth]
  obtain ⟨u, v, hu, hv⟩ := stepLoop_extends _ _ _ _ _ _ _ _ hloop
  have hstep : yearStepOf (some P) (some L) = some ⌈(((P - L : Int)) : ℚ) / 5⌉ := by
    simp [yearStepOf, jsSub]
  have hadd : jsAdd (some L) (some ⌈(((P - L : Int)) : ℚ) / 5⌉) =
      some (L + ⌈(((P - L : Int)) : ℚ) / 5⌉) := rfl
  unfold generatePredictionLine
  rw [hL, hP, hstep, hadd, hloop]
  by_cases hlast : r.1.getLastD ("") = optIntStr (some P)
  · refine ⟨⟨r.1, r.2⟩, ?_, ?_, ?_⟩
    · simp only [Option.map_some']
      rw [if_pos hlast]
    · simp [hu, optIntStr]
    · simpa [optIntStr] using hlast
  · refine ⟨⟨r.1 ++ [optIntStr (some P)], r.2 ++ [pred]⟩, ?_, ?_, ?_⟩
    · simp only [Option.map_some']
      rw [if_neg hlast]
    · simp [hu, optIntStr]
    · simp [optIntStr, getLastD_app_single]

/-- C4 witness at the concrete series dataW and target year 2030:
step = ceil(8/5) = 2, loop years 2024, 2026, 2028, 2030. -/
theorem C4_trendline_endpoints_witness :
    ∃ line, generatePredictionLine defaultEnv dataW ("2030") (some 28)
        SimModel.movingAverage 8 = some line ∧
      line.years.headD ("") = toString (2022 : Int) ∧
      line.years.getLastD ("") = toString (2030 : Int) :=
  C4_trendline_endpoints defaultEnv SimModel.movingAverage dataW ("2030") 2022 2030
    (some 28) 8 (by simp [dataW]) (by decide) (by decide) (by decide) (by decide)

/-! Lemmas for the range-boundary claim. -/

/-- A left fold with min never exceeds its initial value. -/
lemma foldl_min_le_init (l : List ℚ) : ∀ a : ℚ, l.foldl min a ≤ a := by
  induction l with
  | nil => intro a; simp
  | cons x xs ih =>
      intro a
      simp only [List.foldl_cons]
      exact le_trans (ih (min a x)) (min_le_left a x)

/-- A left fold with max is at least its initial value. -/
lemma le_foldl_max_init (l : List ℚ) : ∀ a : ℚ, a ≤ l.foldl max a := by
  induction l with
  | nil => intro a; simp
  | cons x xs ih =>
      intro a
      simp only [List.foldl_cons]
      exact le_trans (le_max_left a x) (ih (max a x))

/-- The observed minimum never exceeds the observed maximum. -/
lemma minAnnual_le_maxAnnual (data : List TemperatureData) (hd : data ≠ []) :
    minAnnual data ≤ maxAnnual data := by
  cases data with
  | nil => exact absurd rfl hd
  | cons d ds =>
      simp only [minAnnual, maxAnnual, List.map_cons, listMinQ, listMaxQ]
      exact le_trans (foldl_min_le_init _ _) (le_foldl_max_init _ _)

/-- C7: with margin 1.5 over the observed annual means, a prediction
exactly at maxObserved + 1.5 (resp. minObserved - 1.5) is classified
in range, while any prediction strictly beyond either bound is
classified out of range. -/
theorem C7_range_boundary (data : List TemperatureData) (hd : data ≠ []) :
    outOfRange data (some (maxAnnual data + 3 / 2)) = false ∧
    (∀ q : ℚ, maxAnnual data + 3 / 2 < q → outOfRange data (some q) = true) ∧
    outOfRange data (some (minAnnual data - 3 / 2)) = false ∧
    (∀ q : ℚ, q < minAnnual data - 3 / 2 → outOfRange data (some q) = true) := by
  have hmm := minAnnual_le_maxAnnual data hd
  cases data with
  | nil => exact absurd rfl hd
  | cons d ds =>
      refine ⟨?_, ?_, ?_, ?_⟩
      · simp only [outOfRange, jsLtQ, jsGtQ, Bool.or_eq_false_iff,
          decide_eq_false_iff_not, not_lt]
        constructor
        · linarith
        · linarith
      · intro q hq
        simp only [outOfRange, jsLtQ, jsGtQ, Bool.or_eq_true, decide_eq_true_eq]
        right
        exact hq
      · simp only [outOfRange, jsLtQ, jsGtQ, Bool.or_eq_false_iff,
          decide_eq_false_iff_not, not_lt]
        constructor
        · linarith
        · linarith
      · intro q hq
        simp only [outOfRange, jsLtQ, jsGtQ, Bool.or_eq_true, decide_eq_true_eq]
        left
        exact hq

/-- C7 witness at the concrete series dataW (band [23.5, 26.5]). -/
theorem C7_range_boundary_witness :
    outOfRange dataW (some (maxAnnual dataW + 3 / 2)) = false ∧
    outOfRange dataW (some 100) = true ∧
    outOfRange dataW (some (minAnnual dataW - 3 / 2)) = false ∧
    outOfRange dataW (some 0) = true := by
  have hmax : maxAnnual dataW + 3 / 2 < 100 := by
    norm_num [maxAnnual, listMaxQ, dataW]
  have hmin : (0 : ℚ) < minAnnual dataW - 3 / 2 := by
    norm_num [minAnnual, listMinQ, dataW]
  exact ⟨(C7_range_boundary dataW (by simp [dataW])).1,
         (C7_range_boundary dataW (by simp [dataW])).2.1 100 hmax,
         (C7_range_boundary dataW (by simp [dataW])).2.2.1,
         (C7_range_boundary dataW (by simp [dataW])).2.2.2 0 hmin⟩
